import Mathlib

/-!
Shallow embedding of defend.js (src/unnamed/part_000), a runtime enforcement
layer for JavaScript objects.  Values are modelled by `JSValue`, property keys
by `JSKey` (string or symbol), a raw instance reached through a proxy by
`Target` (its identity, its visible property map and its display name as
computed by getName), and the module-level mutable state (the construction
session maps, the proxy-to-object map, the released-objects ledger and the
per-class shape records) by `DefendState`.  JavaScript Map and WeakMap tables
are modelled as association lists with Map.set replace-or-append semantics.

Diagnostic reporting is modelled by the inductive `Warning`: each constructor
carries exactly the data the source interpolates into the corresponding
message handed to logDefendedObjectWarning (string formatting itself, and the
console sink, are external collaborators per the specification).  The current
call stack captured by GetCallStack() is host state and is passed to the
operations that record or report it as an explicit `stk : String` argument;
the default sink appends such a stack to every message.
-/

namespace DefendJS

/-- JavaScript runtime values, one constructor per structural classification
distinguished by getType.  Payloads identify the particular value: numbers are
abstracted to Int (no arithmetic is performed on them), objects, arrays and
functions are references carrying their identity. -/
inductive JSValue where
  | null
  | undefined
  | bool (b : Bool)
  | num (n : Int)
  | str (s : String)
  | sym (s : String)
  | func (id : Nat)
  | arr (id : Nat)
  | obj (id : Nat)
  deriving DecidableEq, Repr

/-- Property keys: JavaScript property keys are strings or symbols. -/
inductive JSKey where
  | str (s : String)
  | sym (s : String)
  deriving DecidableEq, Repr

/-- Association list lookup, modelling Map.get / WeakMap.get (undefined is
`none`). -/
def assoc {κ α : Type} [DecidableEq κ] : List (κ × α) → κ → Option α
  | [], _ => none
  | (k, v) :: rest, key => if k = key then some v else assoc rest key

/-- Association list update, modelling Map.set / WeakMap.set: replaces the
value of an existing key in place, appends a fresh pair otherwise. -/
def mapSet {κ α : Type} [DecidableEq κ] : List (κ × α) → κ → α → List (κ × α)
  | [], key, v => [(key, v)]
  | (k, w) :: rest, key, v =>
      if k = key then (key, v) :: rest else (k, w) :: mapSet rest key v

/-- Association list removal, modelling Map.delete. -/
def mapDelete {κ α : Type} [DecidableEq κ] : List (κ × α) → κ → List (κ × α)
  | [], _ => []
  | (k, w) :: rest, key =>
      if k = key then rest else (k, w) :: mapDelete rest key

@[simp] theorem assoc_nil {κ α : Type} [DecidableEq κ] (key : κ) :
    assoc ([] : List (κ × α)) key = none := rfl

@[simp] theorem assoc_cons {κ α : Type} [DecidableEq κ] (k : κ) (v : α)
    (rest : List (κ × α)) (key : κ) :
    assoc ((k, v) :: rest) key = if k = key then some v else assoc rest key := rfl

@[simp] theorem assoc_mapSet_self {κ α : Type} [DecidableEq κ]
    (m : List (κ × α)) (key : κ) (v : α) :
    assoc (mapSet m key v) key = some v := by
  induction m with
  | nil => simp [mapSet]
  | cons p rest ih =>
      obtain ⟨k, w⟩ := p
      by_cases h : k = key <;> simp [mapSet, h, ih]

@[simp] theorem assoc_mapSet_other {κ α : Type} [DecidableEq κ]
    (m : List (κ × α)) (key key' : κ) (v : α) (h : key ≠ key') :
    assoc (mapSet m key v) key' = assoc m key' := by
  induction m with
  | nil => simp [mapSet, assoc, h]
  | cons p rest ih =>
      obtain ⟨k, w⟩ := p
      by_cases hk : k = key
      · subst hk; simp [mapSet, assoc, h]
      · simp [mapSet, hk, assoc, ih]

/-- Substitute for typeof with two changes (lines 72-81): null classifies as
"null" instead of "object", and arrays classify as "array" instead of
"object"; all other values classify as their typeof string. -/
def getType (o : JSValue) : String :=
  match o with
  | .null => "null"
  | .arr _ => "array"
  | .undefined => "undefined"
  | .bool _ => "boolean"
  | .num _ => "number"
  | .str _ => "string"
  | .sym _ => "symbol"
  | .func _ => "function"
  | .obj _ => "object"

/-- Decision rule for a defended property changing type (lines 86-101): any
transition to or from null is allowed, then any transition to or from
undefined is rejected, otherwise the getType classification must stay the
same. -/
def isValidTypeChange (fromValue toValue : JSValue) : Bool :=
  let fromType := getType fromValue
  let toType := getType toValue
  if fromType == "null" || toType == "null" then true
  else if fromType == "undefined" || toType == "undefined" then false
  else fromType == toType

/-- Global enforcement mode, one of "defend", "seal" and "off". -/
inductive Mode where
  | defend
  | seal
  | off
  deriving DecidableEq, Repr

/-- Diagnostic reports, one constructor per logDefendedObjectWarning call site
in the source, carrying the data interpolated into that message.  The `stk`
field of the released-access reports is the call stack current at the access
(the part the default sink appends to every message). -/
inductive Warning where
  | missingGet (key : String) (objName : String) (stk : String)
  | releasedGet (key : String) (objName : String) (releaseStk : String) (stk : String)
  | releasedSet (key : JSKey) (objName : String) (releaseStk : String) (stk : String)
  | nonExistentSet (key : JSKey) (value : JSValue) (objName : String) (stk : String)
  | typeChangedSet (fromType : String) (key : JSKey) (toType : String) (objName : String) (stk : String)
  | inconsistentProps (typeName : String) (keys : List String)
  | missingNew (names : List String)
  deriving DecidableEq, Repr

/-- Hard failures thrown by the deleteProperty and defineProperty traps
(ReferenceError in the source, carrying the key and getName of the target). -/
inductive HardError where
  | cannotDelete (key : JSKey) (objName : String)
  | cannotDefine (key : JSKey) (objName : String)
  deriving DecidableEq, Repr

/-- One object reference as seen by the handler or the public API: its
identity `id` (raw instances and proxies are distinct identities), its visible
enumerable property map `props`, the display name getName would compute for
it, and whether it is an instance of DefendedBase. -/
structure Target where
  id : Nat
  props : List (JSKey × JSValue)
  name : String
  isDefendedBase : Bool
  deriving DecidableEq, Repr

/-- Module-level mutable state of defend.js: the enforcement mode, the two
construction session maps (real object id to proxy id and back), the weak
proxy-to-real-object map, the released-objects ledger mapping a real object id
to the call stack captured when it was released, and the per-class shape
records mapping a class identity to the property-name set of its first
constructed instance. -/
structure DefendState where
  mode : Mode
  ctorObjectToProxy : List (Nat × Nat)
  ctorProxyToObject : List (Nat × Nat)
  proxyToObject : List (Nat × Nat)
  releasedObjects : List (Nat × String)
  typeProperties : List (Nat × List String)
  deriving DecidableEq, Repr

/-- Valid keys to return undefined for in defended property accesses
(lines 119-122). -/
def VALID_GET_MISSING_KEYS : List String := ["then", "splice"]

/-- The typeof key is "symbol" test used by the get trap guards. -/
def isSymbolKey : JSKey → Bool
  | .sym _ => true
  | .str _ => false

/-- Membership of a key in VALID_GET_MISSING_KEYS; a Set of strings never
holds a symbol, so a symbol key always tests false. -/
def isWhitelistedKey : JSKey → Bool
  | .str s => VALID_GET_MISSING_KEYS.contains s
  | .sym _ => false

/-- The text of a key as interpolated into a diagnostic message (only reached
under guards that exclude symbol keys). -/
def keyStr : JSKey → String
  | .str s => s
  | .sym s => s

/-- The `key in target` test on the visible property map. -/
def hasKey (props : List (JSKey × JSValue)) (key : JSKey) : Bool :=
  (assoc props key).isSome

/-- The `target[key]` read: a missing property reads as undefined. -/
def getProp (props : List (JSKey × JSValue)) (key : JSKey) : JSValue :=
  (assoc props key).getD .undefined

/-- The `target[key] = value` assignment on the visible property map. -/
def setProp (props : List (JSKey × JSValue)) (key : JSKey) (value : JSValue) :
    List (JSKey × JSValue) :=
  mapSet props key value

/-- The get trap of defendHandler (lines 125-141): report a missing property
read unless the key is a symbol or whitelisted, then report an access on a
released object under the same key guards, then return the underlying value.
The trap never throws and mutates nothing (its type returns no state). -/
def handlerGet (st : DefendState) (target : Target) (key : JSKey) (stk : String) :
    JSValue × List Warning :=
  let missingWarning : List Warning :=
    if !(hasKey target.props key) && !(isSymbolKey key) && !(isWhitelistedKey key) then
      [Warning.missingGet (keyStr key) target.name stk]
    else []
  let releasedWarning : List Warning :=
    if (assoc st.releasedObjects target.id).isSome && !(isSymbolKey key) && !(isWhitelistedKey key) then
      [Warning.releasedGet (keyStr key) target.name
        ((assoc st.releasedObjects target.id).getD "") stk]
    else []
  (getProp target.props key, missingWarning ++ releasedWarning)

/-- The set trap of defendHandler (lines 143-174): first a released target
rejects the write, else a missing key outside a construction session rejects
it, else an invalid type change outside a construction session rejects it,
else the assignment is performed.  The trap always returns true to the caller
(it is total and returns the possibly-updated target plus its reports). -/
def handlerSet (st : DefendState) (target : Target) (key : JSKey) (value : JSValue)
    (stk : String) : Target × List Warning :=
  if (assoc st.releasedObjects target.id).isSome then
    (target,
     [Warning.releasedSet key target.name
        ((assoc st.releasedObjects target.id).getD "") stk])
  else if !(hasKey target.props key) && !((assoc st.ctorObjectToProxy target.id).isSome) then
    (target, [Warning.nonExistentSet key value target.name stk])
  else if !(isValidTypeChange (getProp target.props key) value)
      && !((assoc st.ctorObjectToProxy target.id).isSome) then
    (target,
     [Warning.typeChangedSet (getType (getProp target.props key)) key (getType value)
        target.name stk])
  else
    ({ target with props := setProp target.props key value }, [])

/-- The deleteProperty trap (lines 176-179): unconditionally throws a
ReferenceError; the module state is never consulted and the target never
changed. -/
def handlerDeleteProperty (st : DefendState) (target : Target) (key : JSKey) :
    Except HardError Target :=
  .error (.cannotDelete key target.name)

/-- The defineProperty trap (lines 181-184): unconditionally throws a
ReferenceError whatever the descriptor; the module state is never consulted
and the target never changed. -/
def handlerDefineProperty (st : DefendState) (target : Target) (key : JSKey)
    (desc : List (String × JSValue)) : Except HardError Target :=
  .error (.cannotDefine key target.name)

/-- Setting the global mode (lines 9-15); the string validation guard throws
on anything outside the three modelled modes, so the stored mode is always one
of the `Mode` constructors. -/
def SetMode (m : Mode) (st : DefendState) : DefendState :=
  { st with mode := m }

/-- The body of the DefendedBase constructor in defend mode (lines 222-234):
register the fresh real object and its proxy in both construction session maps
and in the weak proxy-to-object map.  Outside defend mode the constructor
returns without touching any state. -/
def DefendedBaseConstruct (realId proxyId : Nat) (st : DefendState) : DefendState :=
  if st.mode = Mode.defend then
    { st with
        ctorObjectToProxy := mapSet st.ctorObjectToProxy realId proxyId,
        ctorProxyToObject := mapSet st.ctorProxyToObject proxyId realId,
        proxyToObject := mapSet st.proxyToObject proxyId realId }
  else st

/-- The deferred timer check (lines 192-207): if either construction session
map is non-empty, report the classes constructed without New and clear both
maps so the warning appears once. -/
def CheckDefendedObjectsUsedCorrectly (names : List String) (st : DefendState) :
    DefendState × List Warning :=
  if st.ctorObjectToProxy.length > 0 || st.ctorProxyToObject.length > 0 then
    ({ st with ctorObjectToProxy := [], ctorProxyToObject := [] },
     [Warning.missingNew names])
  else (st, [])

/-- Outcome of Defend: the object passed through as-is, or the object with
Object.seal applied to it in seal mode. -/
inductive DefendResult where
  | rawObj (t : Target)
  | sealedObj (t : Target)
  deriving DecidableEq, Repr

/-- Defend (lines 238-270).  The argument of every call modelled here is a
constructed instance, so the initial typeof object guard always passes.  In
defend mode an instance of DefendedBase has its construction session entries
removed (or passes straight through when they are already gone); in seal mode
the object is sealed; otherwise the object passes through untouched. -/
def Defend (o : Target) (st : DefendState) : DefendState × DefendResult :=
  if st.mode = Mode.defend && o.isDefendedBase then
    match assoc st.ctorProxyToObject o.id with
    | none => (st, .rawObj o)
    | some realId =>
        ({ st with
             ctorProxyToObject := mapDelete st.ctorProxyToObject o.id,
             ctorObjectToProxy := mapDelete st.ctorObjectToProxy realId },
         .rawObj o)
  else if st.mode = Mode.seal then
    (st, .sealedObj o)
  else
    (st, .rawObj o)

/-- Deduplication keeping the first occurrence of each string, the iteration
order a JavaScript Set built by repeated add calls produces. -/
def dedupKeysAux : List String → List String → List String
  | [], acc => acc.reverse
  | s :: rest, acc =>
      if s ∈ acc then dedupKeysAux rest acc else dedupKeysAux rest (s :: acc)

/-- GetObjectPropertySet (lines 276-284): the set of enumerable string keys of
the object in for-in order (for-in never yields symbol keys). -/
def GetObjectPropertySet (props : List (JSKey × JSValue)) : List String :=
  dedupKeysAux
    (props.filterMap (fun p => match p.1 with | .str s => some s | .sym _ => none)) []

/-- The inconsistent-property list computed by the loop of
VerifyObjectPropertiesConsistent: the recorded keys missing from the current
set, in record order, followed by the current keys missing from the record, in
current order. -/
def diffKeys (recorded current : List String) : List String :=
  recorded.filter (fun k => !(current.contains k)) ++
    current.filter (fun k => !(recorded.contains k))

/-- VerifyObjectPropertiesConsistent (lines 286-323): on the first
construction of a class, record its property set; afterwards compare against
the record, report the differing keys when there are any, and never touch the
record. -/
def VerifyObjectPropertiesConsistent (TypeId : Nat) (typeName : String)
    (props : List (JSKey × JSValue)) (st : DefendState) :
    DefendState × List Warning :=
  let properties := GetObjectPropertySet props
  match assoc st.typeProperties TypeId with
  | some existingProperties =>
      let inconsistentProperties := diffKeys existingProperties properties
      if inconsistentProperties.isEmpty then (st, [])
      else (st, [Warning.inconsistentProps typeName inconsistentProperties])
  | none =>
      ({ st with typeProperties := mapSet st.typeProperties TypeId properties }, [])

/-- New (lines 325-348).  The class is a function identity `Type` with display
name `typeName`; running its constructor is modelled by `ctor`, an arbitrary
state transformer producing either the constructed instance or a propagated
error (the typeof function guard on the class itself always passes here).  On
a constructor error both construction session maps are cleared and the error
is rethrown; on success the shape validator runs in defend mode and the result
goes through Defend. -/
def New {ε : Type} (TypeId : Nat) (typeName : String)
    (ctor : DefendState → DefendState × Except ε Target) (st : DefendState) :
    DefendState × List Warning × Except ε DefendResult :=
  match ctor st with
  | (st1, .error e) =>
      ({ st1 with ctorProxyToObject := [], ctorObjectToProxy := [] }, [], .error e)
  | (st1, .ok o) =>
      let verified :=
        if st1.mode = Mode.defend then
          VerifyObjectPropertiesConsistent TypeId typeName o.props st1
        else (st1, [])
      let defended := Defend o verified.1
      (defended.1, verified.2, .ok defended.2)

/-- Release (lines 350-360): resolve the proxy to its real object through the
weak map; if it resolves, store that identity in the released-objects ledger
together with the call stack current at the release site (GetCallStack passed
as `stk`); an unresolvable argument is a no-op. -/
def Release (o : Nat) (stk : String) (st : DefendState) : DefendState :=
  match assoc st.proxyToObject o with
  | some realObject =>
      { st with releasedObjects := mapSet st.releasedObjects realObject stk }
  | none => st

/-- WasReleased (lines 362-372): resolve the proxy; with no real object mapped
return false, otherwise return the truthiness of the ledger entry (undefined
is falsy, a stored stack string is truthy unless empty).  The function reports
nothing and returns no state. -/
def WasReleased (o : Nat) (st : DefendState) : Bool :=
  match assoc st.proxyToObject o with
  | none => false
  | some realObject =>
      match assoc st.releasedObjects realObject with
      | none => false
      | some stk => stk != ""

/-- Structural classifications named by the specification for the
type-compatibility rule, with null and array distinguished from plain
objects. -/
inductive Classification where
  | cNull
  | cUndefined
  | cBoolean
  | cNumber
  | cString
  | cSymbol
  | cFunction
  | cArray
  | cObject
  deriving DecidableEq, Repr

/-- Classification of a value into the nine classes of the specification. -/
def classify : JSValue → Classification
  | .null => .cNull
  | .undefined => .cUndefined
  | .bool _ => .cBoolean
  | .num _ => .cNumber
  | .str _ => .cString
  | .sym _ => .cSymbol
  | .func _ => .cFunction
  | .arr _ => .cArray
  | .obj _ => .cObject

/-- Type-compatibility rule as the specification words it: valid if either
side classifies null-like, else invalid if either side classifies absent,
else valid exactly when both classifications agree. -/
def validTypeChangeSpec (fromValue toValue : JSValue) : Bool :=
  if classify fromValue = .cNull ∨ classify toValue = .cNull then true
  else if classify fromValue = .cUndefined ∨ classify toValue = .cUndefined then false
  else classify fromValue = classify toValue

/-- Write decision procedure as the specification words it, in its fixed
order: a released identity rejects the write, else an absent key outside a
construction session rejects it, else a present key whose type change is
invalid outside a construction session rejects it, else the assignment is
performed; every branch returns normally. -/
def writeSpec (st : DefendState) (target : Target) (key : JSKey) (value : JSValue)
    (stk : String) : Target × List Warning :=
  if (assoc st.releasedObjects target.id).isSome then
    (target,
     [Warning.releasedSet key target.name
        ((assoc st.releasedObjects target.id).getD "") stk])
  else if !(hasKey target.props key) && !((assoc st.ctorObjectToProxy target.id).isSome) then
    (target, [Warning.nonExistentSet key value target.name stk])
  else if hasKey target.props key
      && !(isValidTypeChange (getProp target.props key) value)
      && !((assoc st.ctorObjectToProxy target.id).isSome) then
    (target,
     [Warning.typeChangedSet (getType (getProp target.props key)) key (getType value)
        target.name stk])
  else
    ({ target with props := setProp target.props key value }, [])

/-- C4: isValidTypeChange returns true when either side classifies null-like,
else false when either side classifies absent, else true exactly when both
sides share the same structural classification (null and array distinguished
from plain objects); in particular the null-to-absent and absent-to-null
transitions are valid because the null rule applies first. -/
theorem isValidTypeChange_matches_classification (a b : JSValue) :
    isValidTypeChange a b = validTypeChangeSpec a b
      ∧ isValidTypeChange JSValue.null JSValue.undefined = true
      ∧ isValidTypeChange JSValue.undefined JSValue.null = true := by
  refine ⟨?_, rfl, rfl⟩
  cases a <;> cases b <;> rfl

/-- C1: the set trap evaluates its checks in the fixed order of the
specification — released identity, then non-existent key outside a
construction session, then invalid type change on a present key outside a
construction session, then the assignment — and in every case it returns
normally to the caller with the reported warnings, never an error. -/
theorem set_follows_spec_order (st : DefendState) (t : Target) (k : JSKey)
    (v : JSValue) (stk : String) :
    handlerSet st t k v stk = writeSpec st t k v stk := by
  simp only [handlerSet, writeSpec]
  split_ifs <;> simp_all

/-- C8: the deleteProperty and defineProperty traps raise a hard error for
every state (construction session active or not), every key and every
descriptor, and return no updated instance, so the properties are left
completely unchanged. -/
theorem delete_define_always_hard_error (st : DefendState) (t : Target)
    (k : JSKey) (d : List (String × JSValue)) :
    handlerDeleteProperty st t k = Except.error (HardError.cannotDelete k t.name)
      ∧ handlerDefineProperty st t k d = Except.error (HardError.cannotDefine k t.name) :=
  ⟨rfl, rfl⟩

theorem mem_diffKeys (a b : List String) (k : String) :
    k ∈ diffKeys a b ↔ ((k ∈ a ∧ k ∉ b) ∨ (k ∈ b ∧ k ∉ a)) := by
  simp [diffKeys, List.mem_filter, List.mem_append]

theorem verify_eq_of_record_none (TypeId : Nat) (typeName : String)
    (props : List (JSKey × JSValue)) (st : DefendState)
    (h : assoc st.typeProperties TypeId = none) :
    VerifyObjectPropertiesConsistent TypeId typeName props st =
      ({ st with typeProperties :=
           mapSet st.typeProperties TypeId (GetObjectPropertySet props) }, []) := by
  simp [VerifyObjectPropertiesConsistent, h]

theorem verify_eq_of_record_some (TypeId : Nat) (typeName : String)
    (props : List (JSKey × JSValue)) (st : DefendState) (recorded : List String)
    (h : assoc st.typeProperties TypeId = some recorded) :
    VerifyObjectPropertiesConsistent TypeId typeName props st =
      (st,
       if diffKeys recorded (GetObjectPropertySet props) = [] then []
       else [Warning.inconsistentProps typeName
               (diffKeys recorded (GetObjectPropertySet props))]) := by
  simp only [VerifyObjectPropertiesConsistent, h]
  rcases hd : diffKeys recorded (GetObjectPropertySet props) with _ | ⟨x, xs⟩ <;>
    simp [hd, List.isEmpty]

theorem verify_mode (TypeId : Nat) (typeName : String)
    (props : List (JSKey × JSValue)) (st : DefendState) :
    (VerifyObjectPropertiesConsistent TypeId typeName props st).1.mode = st.mode := by
  rcases h : assoc st.typeProperties TypeId with _ | recorded
  · simp [verify_eq_of_record_none TypeId typeName props st h]
  · simp [verify_eq_of_record_some TypeId typeName props st recorded h]

/-- C5: the first constructed instance of a class stores its property-name set
as the shape record with no violation; every later construction against an
existing record leaves the whole state (in particular the record) unchanged
and reports exactly one inconsistent-properties violation precisely when the
symmetric difference between the record and the property set of the instance
is non-empty, the reported keys being exactly that symmetric difference. -/
theorem verify_shape_record (st : DefendState) (TypeId : Nat) (typeName : String)
    (props : List (JSKey × JSValue)) :
    (assoc st.typeProperties TypeId = none →
        VerifyObjectPropertiesConsistent TypeId typeName props st =
          ({ st with typeProperties :=
               mapSet st.typeProperties TypeId (GetObjectPropertySet props) }, []))
      ∧ (∀ recorded, assoc st.typeProperties TypeId = some recorded →
          (VerifyObjectPropertiesConsistent TypeId typeName props st).1 = st
            ∧ (VerifyObjectPropertiesConsistent TypeId typeName props st).2 =
                (if diffKeys recorded (GetObjectPropertySet props) = [] then []
                 else [Warning.inconsistentProps typeName
                         (diffKeys recorded (GetObjectPropertySet props))])
            ∧ (∀ k, k ∈ diffKeys recorded (GetObjectPropertySet props) ↔
                ((k ∈ recorded ∧ k ∉ GetObjectPropertySet props)
                  ∨ (k ∈ GetObjectPropertySet props ∧ k ∉ recorded)))) := by
  constructor
  · intro h
    exact verify_eq_of_record_none TypeId typeName props st h
  · intro recorded h
    have he := verify_eq_of_record_some TypeId typeName props st recorded h
    refine ⟨by rw [he], by rw [he], fun k => mem_diffKeys recorded _ k⟩

/-- State in which class 0 already has the shape record a, b, c. -/
def demoSt : DefendState :=
  { mode := Mode.defend, ctorObjectToProxy := [], ctorProxyToObject := [],
    proxyToObject := [], releasedObjects := [], typeProperties := [(0, ["a", "b", "c"])] }

/-- Properties a, b, d of a second instance of class 0, diverging from the
recorded baseline on c and d. -/
def demoProps : List (JSKey × JSValue) :=
  [(JSKey.str "a", JSValue.num 1), (JSKey.str "b", JSValue.num 2),
   (JSKey.str "d", JSValue.num 3)]

theorem verify_shape_record_witness :
    (VerifyObjectPropertiesConsistent 0 "Demo" demoProps demoSt).1 = demoSt
      ∧ (VerifyObjectPropertiesConsistent 0 "Demo" demoProps demoSt).2 =
          (if diffKeys ["a", "b", "c"] (GetObjectPropertySet demoProps) = [] then []
           else [Warning.inconsistentProps "Demo"
                   (diffKeys ["a", "b", "c"] (GetObjectPropertySet demoProps))])
      ∧ ("c" ∈ diffKeys ["a", "b", "c"] (GetObjectPropertySet demoProps) ↔
          (("c" ∈ ["a", "b", "c"] ∧ "c" ∉ GetObjectPropertySet demoProps)
            ∨ ("c" ∈ GetObjectPropertySet demoProps ∧ "c" ∉ ["a", "b", "c"]))) :=
  ⟨((verify_shape_record demoSt 0 "Demo" demoProps).2 ["a", "b", "c"] rfl).1,
   ((verify_shape_record demoSt 0 "Demo" demoProps).2 ["a", "b", "c"] rfl).2.1,
   ((verify_shape_record demoSt 0 "Demo" demoProps).2 ["a", "b", "c"] rfl).2.2 "c"⟩

/-- C6: when the constructor run by New raises an error, New clears both
construction session maps entirely, leaves the shape records exactly as the
constructor left them (the validator never runs), and propagates the same
error to its caller. -/
theorem new_propagates_ctor_error {ε : Type} (TypeId : Nat) (typeName : String)
    (ctor : DefendState → DefendState × Except ε Target) (st st1 : DefendState)
    (e : ε) (h : ctor st = (st1, Except.error e)) :
    New TypeId typeName ctor st =
      ({ st1 with ctorProxyToObject := [], ctorObjectToProxy := [] },
       [], Except.error e)
      ∧ (New TypeId typeName ctor st).1.typeProperties = st1.typeProperties := by
  refine ⟨by simp [New, h], ?_⟩
  simp [New, h]

/-- State with in-flight construction sessions of two unrelated objects and an
existing shape record. -/
def inflightSt : DefendState :=
  { mode := Mode.defend, ctorObjectToProxy := [(0, 1), (2, 3)],
    ctorProxyToObject := [(1, 0), (3, 2)], proxyToObject := [(1, 0), (3, 2)],
    releasedObjects := [], typeProperties := [(7, ["x"])] }

/-- Constructor whose initialization logic throws. -/
def throwingCtor : DefendState → DefendState × Except String Target :=
  fun s => (s, Except.error "boom")

theorem new_propagates_ctor_error_witness :
    New 7 "Crashy" throwingCtor inflightSt =
      ({ inflightSt with ctorProxyToObject := [], ctorObjectToProxy := [] },
       [], Except.error "boom")
      ∧ (New 7 "Crashy" throwingCtor inflightSt).1.typeProperties =
          inflightSt.typeProperties :=
  new_propagates_ctor_error 7 "Crashy" throwingCtor inflightSt inflightSt "boom" rfl

theorem defend_nonderived (o : Target) (st : DefendState)
    (hm : st.mode = Mode.defend) (hndb : o.isDefendedBase = false) :
    Defend o st = (st, DefendResult.rawObj o) := by
  simp [Defend, hm, hndb]

/-- C10: in full-enforcement mode New runs the shape consistency validator on
every successfully constructed instance, including instances of classes that
do not derive from DefendedBase: such an instance is returned unwrapped, yet
its class still acquires a shape record on first construction and its
divergences are still reported through the validator warnings. -/
theorem new_runs_validator_on_nonderived {ε : Type} (TypeId : Nat)
    (typeName : String) (ctor : DefendState → DefendState × Except ε Target)
    (st st1 : DefendState) (o : Target)
    (hm : st1.mode = Mode.defend)
    (h : ctor st = (st1, Except.ok o))
    (hndb : o.isDefendedBase = false) :
    New TypeId typeName ctor st =
      ((VerifyObjectPropertiesConsistent TypeId typeName o.props st1).1,
       (VerifyObjectPropertiesConsistent TypeId typeName o.props st1).2,
       Except.ok (DefendResult.rawObj o))
      ∧ (assoc st1.typeProperties TypeId = none →
          assoc (New TypeId typeName ctor st).1.typeProperties TypeId
            = some (GetObjectPropertySet o.props)) := by
  have hvm : (VerifyObjectPropertiesConsistent TypeId typeName o.props st1).1.mode
      = Mode.defend := by
    rw [verify_mode]; exact hm
  have hd := defend_nonderived o _ hvm hndb
  have hmain : New TypeId typeName ctor st =
      ((VerifyObjectPropertiesConsistent TypeId typeName o.props st1).1,
       (VerifyObjectPropertiesConsistent TypeId typeName o.props st1).2,
       Except.ok (DefendResult.rawObj o)) := by
    simp [New, h, hm, hd]
  refine ⟨hmain, fun hnone => ?_⟩
  rw [hmain]
  rw [verify_eq_of_record_none TypeId typeName o.props st1 hnone]
  simp

/-- Constructor of a class that does not derive from DefendedBase, producing
an instance with properties a and b and touching no state. -/
def plainCtor : DefendState → DefendState × Except String Target :=
  fun s =>
    (s, Except.ok
      { id := 4,
        props := [(JSKey.str "a", JSValue.num 1), (JSKey.str "b", JSValue.null)],
        name := "Plain", isDefendedBase := false })

/-- State in defend mode with no shape record for class 9. -/
def noRecordSt : DefendState :=
  { mode := Mode.defend, ctorObjectToProxy := [], ctorProxyToObject := [],
    proxyToObject := [], releasedObjects := [], typeProperties := [] }

theorem new_runs_validator_on_nonderived_witness :
    assoc (New 9 "Plain" plainCtor noRecordSt).1.typeProperties 9
      = some (GetObjectPropertySet
          [(JSKey.str "a", JSValue.num 1), (JSKey.str "b", JSValue.null)]) :=
  (new_runs_validator_on_nonderived 9 "Plain" plainCtor noRecordSt noRecordSt
      { id := 4,
        props := [(JSKey.str "a", JSValue.num 1), (JSKey.str "b", JSValue.null)],
        name := "Plain", isDefendedBase := false }
      rfl rfl rfl).2 rfl

theorem defend_releasedObjects (o : Target) (st : DefendState) :
    (Defend o st).1.releasedObjects = st.releasedObjects := by
  simp only [Defend]
  split_ifs
  · rcases assoc st.ctorProxyToObject o.id with _ | realId <;> rfl
  · rfl
  · rfl

theorem verify_releasedObjects (TypeId : Nat) (typeName : String)
    (props : List (JSKey × JSValue)) (st : DefendState) :
    (VerifyObjectPropertiesConsistent TypeId typeName props st).1.releasedObjects
      = st.releasedObjects := by
  rcases h : assoc st.typeProperties TypeId with _ | recorded
  · simp [verify_eq_of_record_none TypeId typeName props st h]
  · simp [verify_eq_of_record_some TypeId typeName props st recorded h]

/-- State with one defended instance: proxy 1 wraps real object 0. -/
def relSt : DefendState :=
  { mode := Mode.defend, ctorObjectToProxy := [], ctorProxyToObject := [],
    proxyToObject := [(1, 0)], releasedObjects := [], typeProperties := [] }

/-- C7 counterexample: after Release stores the context site-A for identity 0,
a second Release of the same proxy overwrites the stored release context with
the newer site-B, so the previously stored context is reset rather than
preserved. -/
theorem release_twice_resets_context :
    assoc (Release 1 "site-A" relSt).releasedObjects 0 = some "site-A"
      ∧ assoc (Release 1 "site-B" (Release 1 "site-A" relSt)).releasedObjects 0
          = some "site-B"
      ∧ ("site-B" : String) ≠ "site-A" := by
  refine ⟨by decide, by decide, by decide⟩

/-- C7 (amended): release is permanent for the identity: once an identity is
in the released-objects ledger, a further Release of any proxy keeps it there
(and keeps the stored context unchanged unless the same identity is released
again, in which case the context is overwritten with the newer release site),
and every other state-transforming operation of the module leaves the ledger
entry exactly as it is; the get and set traps and WasReleased return no state
at all, so released-object reporting recurs on every later access. -/
theorem release_record_permanent (st : DefendState) (r : Nat) (c : String)
    (h : assoc st.releasedObjects r = some c) :
    (∀ p stk, (assoc (Release p stk st).releasedObjects r).isSome)
      ∧ (∀ p stk, assoc st.proxyToObject p ≠ some r →
          assoc (Release p stk st).releasedObjects r = some c)
      ∧ (∀ m, (SetMode m st).releasedObjects = st.releasedObjects)
      ∧ (∀ o, (Defend o st).1.releasedObjects = st.releasedObjects)
      ∧ (∀ TypeId typeName props,
          (VerifyObjectPropertiesConsistent TypeId typeName props st).1.releasedObjects
            = st.releasedObjects)
      ∧ (∀ realId proxyId,
          (DefendedBaseConstruct realId proxyId st).releasedObjects
            = st.releasedObjects)
      ∧ (∀ names,
          (CheckDefendedObjectsUsedCorrectly names st).1.releasedObjects
            = st.releasedObjects)
      ∧ (∀ (ctor : DefendState → DefendState × Except Unit Target) TypeId typeName,
          (∀ s, ((ctor s).1).releasedObjects = s.releasedObjects) →
          ((New TypeId typeName ctor st).1).releasedObjects = st.releasedObjects) := by
  refine ⟨?_, ?_, ?_, ?_, ?_, ?_, ?_, ?_⟩
  · intro p stk
    simp only [Release]
    rcases hp : assoc st.proxyToObject p with _ | realId
    · simp [h]
    · by_cases hr : realId = r
      · subst hr; simp
      · simp [assoc_mapSet_other _ _ _ _ hr, h]
  · intro p stk hp
    simp only [Release]
    rcases hq : assoc st.proxyToObject p with _ | realId
    · exact h
    · have hr : realId ≠ r := by
        intro he; exact hp (he ▸ hq)
      simp [assoc_mapSet_other _ _ _ _ hr, h]
  · intro m; rfl
  · intro o; exact defend_releasedObjects o st
  · intro TypeId typeName props; exact verify_releasedObjects TypeId typeName props st
  · intro realId proxyId
    simp only [DefendedBaseConstruct]
    split_ifs <;> rfl
  · intro names
    simp only [CheckDefendedObjectsUsedCorrectly]
    split_ifs <;> rfl
  · intro ctor TypeId typeName hctor
    simp only [New]
    rcases hc : ctor st with ⟨st1, exc⟩
    have h1 : st1.releasedObjects = st.releasedObjects := by
      have := hctor st; rw [hc] at this; exact this
    rcases exc with e | o
    · simpa using h1
    · simp only []
      rw [defend_releasedObjects]
      by_cases hmode : st1.mode = Mode.defend <;>
        simp [hmode, verify_releasedObjects, h1]

/-- State in which identity 0 is already released with context site-A. -/
def wSt : DefendState :=
  { mode := Mode.defend, ctorObjectToProxy := [], ctorProxyToObject := [],
    proxyToObject := [(1, 0)], releasedObjects := [(0, "site-A")],
    typeProperties := [] }

theorem release_record_permanent_witness :
    ((assoc (Release 1 "site-B" wSt).releasedObjects 0).isSome = true)
      ∧ (SetMode Mode.seal wSt).releasedObjects = wSt.releasedObjects :=
  ⟨(release_record_permanent wSt 0 "site-A" rfl).1 1 "site-B",
   (release_record_permanent wSt 0 "site-A" rfl).2.2.1 Mode.seal⟩

/-- C9: WasReleased resolves the proxy identity and queries the ledger only —
by its type it emits no diagnostic and returns no state.  It is false for an
argument with no tracked identity, false for a tracked identity not yet
released, true in every state whose ledger holds the identity with its stored
(non-empty) release stack, and in particular true immediately after Release
records a non-empty call stack for the identity. -/
theorem wasReleased_query (st : DefendState) (p : Nat) :
    (assoc st.proxyToObject p = none → WasReleased p st = false)
      ∧ (∀ r, assoc st.proxyToObject p = some r →
          assoc st.releasedObjects r = none → WasReleased p st = false)
      ∧ (∀ r c, assoc st.proxyToObject p = some r →
          assoc st.releasedObjects r = some c → c ≠ "" → WasReleased p st = true)
      ∧ (∀ r stk, assoc st.proxyToObject p = some r → stk ≠ "" →
          WasReleased p (Release p stk st) = true) := by
  refine ⟨?_, ?_, ?_, ?_⟩
  · intro h; simp [WasReleased, h]
  · intro r hp hr; simp [WasReleased, hp, hr]
  · intro r c hp hr hc; simp [WasReleased, hp, hr, bne_iff_ne, hc]
  · intro r stk hp hstk
    simp [WasReleased, Release, hp, bne_iff_ne, hstk]

/-- State with one tracked, not yet released instance: proxy 1 wraps real
object 0. -/
def freshSt : DefendState :=
  { mode := Mode.defend, ctorObjectToProxy := [], ctorProxyToObject := [],
    proxyToObject := [(1, 0)], releasedObjects := [], typeProperties := [] }

theorem wasReleased_query_witness :
    WasReleased 1 freshSt = false
      ∧ WasReleased 1 (Release 1 "site-A" freshSt) = true
      ∧ WasReleased 3 freshSt = false :=
  ⟨(wasReleased_query freshSt 1).2.1 0 rfl rfl,
   (wasReleased_query freshSt 1).2.2.2 0 "site-A" rfl (by decide),
   (wasReleased_query freshSt 3).1 rfl⟩

/-- State in which real object 0 (wrapped by proxy 1) has been released with
the stored context release-site. -/
def releasedSt : DefendState :=
  { mode := Mode.defend, ctorObjectToProxy := [], ctorProxyToObject := [],
    proxyToObject := [(1, 0)], releasedObjects := [(0, "release-site")],
    typeProperties := [] }

/-- The released instance itself, with no own properties. -/
def releasedVictim : Target :=
  { id := 0, props := [], name := "Victim", isDefendedBase := true }

/-- C2 counterexample: on a released instance, reading the whitelisted key
then (absent from the instance) reports nothing at all — neither a released
object access nor a missing property — so not every key read on a released
object is reported. -/
theorem released_get_whitelisted_silent :
    handlerGet releasedSt releasedVictim (JSKey.str "then") "access-site"
      = (JSValue.undefined, []) := by decide

/-- C2 (amended): on a released instance every read of a non-symbol key
outside the interoperability whitelist (then, splice) reports the released
object access carrying both the stored release context and the current access
context, whether or not the key exists (an absent key adds its own
missing-property report first); the read still returns the underlying value
and never throws, and since the read trap consumes no state the report recurs
on every later access; reads of symbol keys or whitelisted keys are exempt. -/
theorem released_get_reports (st : DefendState) (t : Target) (s : String)
    (stk : String) (c : String)
    (hrel : assoc st.releasedObjects t.id = some c)
    (hwl : VALID_GET_MISSING_KEYS.contains s = false) :
    handlerGet st t (JSKey.str s) stk =
      (getProp t.props (JSKey.str s),
       (if hasKey t.props (JSKey.str s) then ([] : List Warning)
        else [Warning.missingGet s t.name stk])
         ++ [Warning.releasedGet s t.name c stk]) := by
  have hwl2 : s ∉ VALID_GET_MISSING_KEYS := by simpa using hwl
  by_cases hk : hasKey t.props (JSKey.str s) <;>
    simp [handlerGet, isSymbolKey, isWhitelistedKey, keyStr, hrel, hwl, hwl2, hk]

theorem released_get_reports_witness :
    handlerGet releasedSt releasedVictim (JSKey.str "x") "access-site"
      = (getProp releasedVictim.props (JSKey.str "x"),
         (if hasKey releasedVictim.props (JSKey.str "x") then ([] : List Warning)
          else [Warning.missingGet "x" releasedVictim.name "access-site"])
           ++ [Warning.releasedGet "x" releasedVictim.name "release-site" "access-site"]) :=
  released_get_reports releasedSt releasedVictim "x" "access-site" "release-site"
    rfl rfl

theorem validTypeChange_iff_classification (a b : JSValue) :
    isValidTypeChange a b = true ↔
      (classify a = Classification.cNull ∨ classify b = Classification.cNull
        ∨ (classify a = classify b ∧ classify b ≠ Classification.cUndefined)) := by
  cases a <;> cases b <;> simp [isValidTypeChange, getType, classify]

theorem getProp_setProp_self (props : List (JSKey × JSValue)) (k : JSKey)
    (v : JSValue) : getProp (setProp props k v) k = v := by
  simp [getProp, setProp]

/-- State with no released object and no construction session in flight. -/
def cleanSt : DefendState :=
  { mode := Mode.defend, ctorObjectToProxy := [], ctorProxyToObject := [],
    proxyToObject := [(1, 0)], releasedObjects := [], typeProperties := [] }

/-- Instance whose existing property x currently holds undefined. -/
def undefVictim : Target :=
  { id := 0, props := [(JSKey.str "x", JSValue.undefined)], name := "T",
    isDefendedBase := true }

/-- C3 counterexample: the present key x holds undefined; writing undefined is
a write whose structural classification matches the existing value and where
neither side is null-like, yet the write is rejected with a type-change
report instead of succeeding. -/
theorem same_classification_write_rejected :
    classify (getProp undefVictim.props (JSKey.str "x")) = classify JSValue.undefined
      ∧ handlerSet cleanSt undefVictim (JSKey.str "x") JSValue.undefined "stk"
          = (undefVictim,
             [Warning.typeChangedSet "undefined" (JSKey.str "x") "undefined" "T" "stk"]) :=
  ⟨rfl, by decide⟩

/-- C3 (amended): on a non-released instrumented instance outside a
construction session and a key already present on it: a write succeeds and
round-trips on the next read when either side is null-like or both sides
share a structural classification other than the absent marker; otherwise
(differing classifications with neither side null-like, or the absent marker
on either side) the write is discarded with exactly one type-change report
and a later read of the key still returns the prior value. -/
theorem set_existing_key_roundtrip (st : DefendState) (t : Target) (k : JSKey)
    (v : JSValue) (stk : String)
    (hrel : assoc st.releasedObjects t.id = none)
    (hctor : assoc st.ctorObjectToProxy t.id = none)
    (hkey : hasKey t.props k = true) :
    (classify (getProp t.props k) = Classification.cNull
        ∨ classify v = Classification.cNull
        ∨ (classify (getProp t.props k) = classify v
            ∧ classify v ≠ Classification.cUndefined) →
        handlerSet st t k v stk = ({ t with props := setProp t.props k v }, [])
          ∧ (handlerGet st { t with props := setProp t.props k v } k stk).1 = v)
      ∧ (¬ (classify (getProp t.props k) = Classification.cNull
            ∨ classify v = Classification.cNull
            ∨ (classify (getProp t.props k) = classify v
                ∧ classify v ≠ Classification.cUndefined)) →
        handlerSet st t k v stk
          = (t, [Warning.typeChangedSet (getType (getProp t.props k)) k (getType v)
                   t.name stk])
          ∧ (handlerGet st t k stk).1 = getProp t.props k) := by
  constructor
  · intro hcrit
    have hvalid : isValidTypeChange (getProp t.props k) v = true :=
      (validTypeChange_iff_classification _ _).mpr hcrit
    constructor
    · simp [handlerSet, hrel, hctor, hkey, hvalid]
    · simp [handlerGet, getProp_setProp_self]
  · intro hcrit
    have hvalid : isValidTypeChange (getProp t.props k) v = false := by
      rcases hb : isValidTypeChange (getProp t.props k) v with _ | _
      · rfl
      · exact absurd ((validTypeChange_iff_classification _ _).mp hb) hcrit
    constructor
    · simp [handlerSet, hrel, hctor, hkey, hvalid]
    · simp [handlerGet]

/-- Instance whose existing property x currently holds the number 1. -/
def rtVictim : Target :=
  { id := 0, props := [(JSKey.str "x", JSValue.num 1)], name := "T",
    isDefendedBase := true }

theorem set_existing_key_roundtrip_witness :
    handlerSet cleanSt rtVictim (JSKey.str "x") (JSValue.num 2) "stk"
      = ({ rtVictim with
             props := setProp rtVictim.props (JSKey.str "x") (JSValue.num 2) }, [])
      ∧ (handlerGet cleanSt
           { rtVictim with
               props := setProp rtVictim.props (JSKey.str "x") (JSValue.num 2) }
           (JSKey.str "x") "stk").1 = JSValue.num 2 :=
  (set_existing_key_roundtrip cleanSt rtVictim (JSKey.str "x") (JSValue.num 2)
      "stk" rfl rfl rfl).1
    (Or.inr (Or.inr ⟨rfl, by decide⟩))

end DefendJS
